import Mathlib

/-!
Verification of the browser session lifecycle manager (`BrowserManager`,
`src/browser/browserManager.ts`).

The TypeScript class is embedded shallowly as pure state-passing functions.
The manager's mutable fields become a `ManagerState` record; the sources of
nondeterminism (uuid generation, process launch success, tab creation
success, process ids, page-handle identity) become explicit oracle
parameters, so every operation is a computable Lean function whose control
flow mirrors the method body line by line.  Asynchronous callbacks
(`browser.on('disconnected')`, `page.on('close')`) are embedded as explicit
event-step functions whose bodies are the listener bodies.
-/

set_option autoImplicit false

namespace BrowserMgr

/-- Launch configuration, mirroring the `BrowserConfig` interface
(`browserManager.ts` lines 11-21). -/
structure BrowserConfig where
  chromePath : String
  userDataDir : String
  debuggingPort : Nat
  debuggingHost : String
  persistentSession : Bool
  headless : Bool
  disableSecurity : Bool
  windowWidth : Nat
  windowHeight : Nat
deriving DecidableEq, Repr

/-- The per-page settings applied by `getPage` right after `newPage()`:
`setViewport`, `setDefaultNavigationTimeout`, `setDefaultTimeout`,
`setUserAgent` (lines 130-143). -/
structure PageSettings where
  viewportWidth : Nat
  viewportHeight : Nat
  navTimeoutMs : Nat
  defaultTimeoutMs : Nat
  userAgent : String
deriving DecidableEq, Repr

/-- A page handle.  `handleId` is the identity of the underlying tab object
(two handles are the same JS object iff the ids agree); `ownerPid` records
which browser process the tab was created on. -/
structure Page where
  handleId : Nat
  ownerPid : Nat
  settings : PageSettings
deriving DecidableEq, Repr

/-- The mutable fields of the `BrowserManager` class (lines 27-29):
`browser` (the process reference, `null` encoded as `none`, a live process
encoded by its pid), `pages` (the session registry: an insertion-ordered
map from session id to page, as a JS `Map`), and the immutable `config`. -/
structure ManagerState where
  browser : Option Nat
  pages : List (String × Page)
  config : BrowserConfig
deriving DecidableEq, Repr

/-- JS `Map.prototype.get` on the session registry (keys are unique, so
first match is the match). -/
def findPage (id : String) : List (String × Page) → Option Page
  | [] => none
  | (k, p) :: rest => if k = id then some p else findPage id rest

/-- JS `Map.prototype.delete`: drop the (unique) entry with the given key. -/
def removePage (id : String) : List (String × Page) → List (String × Page)
  | [] => []
  | (k, p) :: rest => if k = id then rest else (k, p) :: removePage id rest

/-- JS `Map.prototype.set`: overwrite in place if the key exists, else
append at the end. -/
def setPage (id : String) (pg : Page) : List (String × Page) → List (String × Page)
  | [] => [(id, pg)]
  | (k, p) :: rest => if k = id then (id, pg) :: rest else (k, p) :: setPage id pg rest

/-- The keys currently registered. -/
def pagesKeys (m : ManagerState) : List String := m.pages.map Prod.fst

/-- Outcome of one `initialize()` call: the already-running warning path
(line 41), a successful launch (line 86), or the rethrown launch failure
(line 97). -/
inductive InitOutcome where
  | warnedAlreadyRunning
  | launched
  | failed (msg : String)
deriving DecidableEq, Repr

/-- The errors `BrowserManager` methods can throw: the wrapped launch
failure (line 97), the dead `Browser not initialized` guard (line 112), and
the wrapped page-creation failure (line 158). -/
inductive BMErr where
  | launchFailure (msg : String)
  | browserNotInitialized
  | newPageFailure (msg : String)
deriving DecidableEq, Repr

/-- The user agent string set on every new page (lines 141-143). -/
def chromeUserAgent : String :=
  "Mozilla/5.0 (Windows NT 10.0; Win64; x64) AppleWebKit/537.36 (KHTML, like Gecko) Chrome/123.0.0.0 Safari/537.36"

/-- Embeds `BrowserManager.initialize` (lines 39-99).  `launchOk` is the
oracle for whether `puppeteerExtra.launch` succeeds, `cause` the underlying
error message when it fails, `newPid` the pid of the freshly launched
process.  If `this.browser` is set: warn and return (lines 40-43).  On
launch success `this.browser` is assigned (line 86); on launch failure the
error is rethrown wrapped (line 97) and `this.browser` stays `null`
(the assignment on line 86 never executed). -/
def initBrowser (m : ManagerState) (launchOk : Bool) (cause : String) (newPid : Nat) :
    ManagerState × InitOutcome :=
  match m.browser with
  | some _ => (m, InitOutcome.warnedAlreadyRunning)
  | none =>
    if launchOk then
      ({ m with browser := some newPid }, InitOutcome.launched)
    else
      (m, InitOutcome.failed ("Failed to launch browser: " ++ cause))

/-- The command-line argument list built by `initialize` (lines 49-83):
the base arguments, then optionally the remote-debugging arguments (only
when `debuggingPort` is truthy, i.e. nonzero) and the relaxed-security
arguments. -/
def launchArgs (cfg : BrowserConfig) : List String :=
  let base := ["--window-size=" ++ toString cfg.windowWidth ++ "," ++ toString cfg.windowHeight,
               "--no-sandbox", "--disable-setuid-sandbox"]
  let base := if cfg.debuggingPort ≠ 0 then
      base ++ ["--remote-debugging-port=" ++ toString cfg.debuggingPort,
               "--remote-debugging-address=" ++ cfg.debuggingHost]
    else base
  if cfg.disableSecurity then
    base ++ ["--disable-web-security", "--disable-features=IsolateOrigins,site-per-process",
             "--allow-running-insecure-content"]
  else base

/-- Oracle for one `getPage` call: the uuid `uuidv4()` would generate, the
launch oracle for a lazy `initialize`, and whether/what `newPage()`
produces. -/
structure GPOracle where
  freshId : String
  launchOk : Bool
  launchCause : String
  newPid : Nat
  newPageOk : Bool
  newPageCause : String
  newHandleId : Nat
deriving DecidableEq, Repr

/-- The id selection `const id = sessionId || uuidv4()` (line 116).  In JS
the empty string is falsy, so it behaves like an absent session id. -/
def sessOrFresh : Option String → String → String
  | some s, fresh => if s = "" then fresh else s
  | none, fresh => fresh

/-- The reuse test `sessionId && this.pages.has(sessionId)` followed by
`this.pages.get(sessionId)` (lines 119-120); again `""` is falsy. -/
def lookupIfProvided : Option String → List (String × Page) → Option Page
  | some s, pages => if s = "" then none else findPage s pages
  | none, _ => none

/-- The page produced by the creation block of `getPage` (lines 128-143):
a fresh tab on the current process, configured by `setViewport` with the
configured window size, `setDefaultNavigationTimeout(30000)`,
`setDefaultTimeout(30000)` and `setUserAgent(chromeUserAgent)`. -/
def newConfiguredPage (cfg : BrowserConfig) (pid : Nat) (handleId : Nat) : Page :=
  { handleId := handleId
    ownerPid := pid
    settings :=
      { viewportWidth := cfg.windowWidth
        viewportHeight := cfg.windowHeight
        navTimeoutMs := 30000
        defaultTimeoutMs := 30000
        userAgent := chromeUserAgent } }

/-- The body of `getPage` after the lazy-init preamble (lines 111-159):
the dead `Browser not initialized` guard, the reuse path returning the
registered page with `sessionId: id`, and the creation path which builds a
configured page, stores it in the map (line 146) and registers the
page-close observer (lines 149-152, embedded as `onPageClose` below);
a `newPage` failure is rethrown wrapped (line 158) with nothing stored. -/
def getPageWithBrowser (m : ManagerState) (sessionId : Option String) (o : GPOracle) :
    ManagerState × Except BMErr (Page × String) :=
  match m.browser with
  | none => (m, Except.error BMErr.browserNotInitialized)
  | some pid =>
    let id := sessOrFresh sessionId o.freshId
    match lookupIfProvided sessionId m.pages with
    | some pg => (m, Except.ok (pg, id))
    | none =>
      if o.newPageOk then
        let pg := newConfiguredPage m.config pid o.newHandleId
        ({ m with pages := setPage id pg m.pages }, Except.ok (pg, id))
      else
        (m, Except.error (BMErr.newPageFailure ("Failed to create page: " ++ o.newPageCause)))

/-- Embeds `BrowserManager.getPage` (lines 106-160).  The preamble: if
`this.browser` is `null`, `await this.initialize()` first (lines 107-109);
an initialize failure propagates to the caller unchanged. -/
def getPage (m : ManagerState) (sessionId : Option String) (o : GPOracle) :
    ManagerState × Except BMErr (Page × String) :=
  match m.browser with
  | some _ => getPageWithBrowser m sessionId o
  | none =>
    match initBrowser m o.launchOk o.launchCause o.newPid with
    | (m1, InitOutcome.failed msg) => (m1, Except.error (BMErr.launchFailure msg))
    | (m1, _) => getPageWithBrowser m1 sessionId o

/-- Embeds `BrowserManager.closePage` (lines 166-177).  `closeOk` is the
oracle for whether `await page.close()` succeeds.  The method never
throws: the `catch` only logs.  Note the `this.pages.delete(sessionId)` on
line 171 sits inside the `try` after the `await`, so on a close failure
the entry is NOT removed. -/
def closePage (m : ManagerState) (sessionId : String) (closeOk : Bool) : ManagerState :=
  match findPage sessionId m.pages with
  | none => m
  | some _ =>
    if closeOk then { m with pages := removePage sessionId m.pages }
    else m

/-- Embeds `BrowserManager.close` (lines 182-199).  If `this.browser` is
`null` the whole body is skipped (line 183).  Otherwise every page is
closed with `.catch(() => \x7b\x7d)` (line 187, so individual failures never
propagate), the map is cleared (line 189), and then `await
this.browser.close()`; `browserCloseOk` is the oracle for that call.  On
its success `this.browser = null` (line 193); on its failure the `catch`
(line 195) only logs, so the `browser` reference is retained.  The method
never throws. -/
def close (m : ManagerState) (browserCloseOk : Bool) : ManagerState :=
  match m.browser with
  | none => m
  | some _ =>
    if browserCloseOk then { m with pages := [], browser := none }
    else { m with pages := [] }

/-- The `browser.on('disconnected')` listener installed by `initialize`
(lines 90-93): it sets `this.browser = null` and nothing else — in
particular the `pages` map is not touched. -/
def onDisconnected (m : ManagerState) : ManagerState :=
  { m with browser := none }

/-- The `page.on('close')` observer installed by `getPage` at page
creation (lines 149-152): it runs `this.pages.delete(id)` for the captured
registration id. -/
def onPageClose (m : ManagerState) (id : String) : ManagerState :=
  { m with pages := removePage id m.pages }

/-- One externally observable step of the manager: a method call (with its
oracle inputs) or an asynchronous event.  A `getPage` step requires the
uuid oracle to behave like `uuidv4()`: a nonempty string not colliding
with any registered key. -/
inductive Step : ManagerState → ManagerState → Prop where
  | doInit (m : ManagerState) (ok : Bool) (cause : String) (pid : Nat) :
      Step m (initBrowser m ok cause pid).1
  | doGetPage (m : ManagerState) (sid : Option String) (o : GPOracle) :
      o.freshId ≠ "" → o.freshId ∉ pagesKeys m → Step m (getPage m sid o).1
  | doClosePage (m : ManagerState) (sid : String) (ok : Bool) :
      Step m (closePage m sid ok)
  | doClose (m : ManagerState) (ok : Bool) :
      Step m (close m ok)
  | evDisconnected (m : ManagerState) :
      Step m (onDisconnected m)
  | evPageClose (m : ManagerState) (id : String) :
      Step m (onPageClose m id)

/-- States reachable from a freshly constructed `BrowserManager(config)`
(constructor, lines 32-34: `browser = null`, empty map). -/
inductive Reachable (cfg : BrowserConfig) : ManagerState → Prop where
  | start : Reachable cfg (ManagerState.mk none [] cfg)
  | step (m m' : ManagerState) : Reachable cfg m → Step m m' → Reachable cfg m'

/-- Modelled from the spec: the number of currently open pages.  A page is
open iff the process that owns it is the currently live one; when the
process is gone (disconnected or never launched) every page owned by it is
gone with it. -/
def openCount (m : ManagerState) : Nat :=
  match m.browser with
  | none => 0
  | some pid => (m.pages.filter (fun e => e.2.ownerPid == pid)).length

/-- A sample launch configuration for concrete runs. -/
def sampleConfig : BrowserConfig :=
  { chromePath := ""
    userDataDir := ""
    debuggingPort := 0
    debuggingHost := "localhost"
    persistentSession := false
    headless := true
    disableSecurity := false
    windowWidth := 1280
    windowHeight := 720 }

/-- A freshly constructed manager. -/
def m0 : ManagerState := ManagerState.mk none [] sampleConfig

/-- A fully successful `getPage` oracle generating uuid `"a"`. -/
def oA : GPOracle :=
  { freshId := "a", launchOk := true, launchCause := "", newPid := 0,
    newPageOk := true, newPageCause := "", newHandleId := 1 }

/-- State after a successful `initialize` on the fresh manager. -/
def trace1 : ManagerState := (initBrowser m0 true "" 0).1

/-- State after a subsequent `getPage()` with no session id: a page is
registered under the generated id `"a"`. -/
def trace2 : ManagerState := (getPage trace1 none oA).1

/-- State after the browser process then fires `disconnected`. -/
def trace3 : ManagerState := onDisconnected trace2

/-! Helper lemmas about the registry map operations. -/

/-- Keys of a registry list. -/
def keys (l : List (String × Page)) : List String := l.map Prod.fst

theorem findPage_eq_none_iff (id : String) (l : List (String × Page)) :
    findPage id l = none ↔ id ∉ keys l := by
  induction l with
  | nil => simp [findPage, keys]
  | cons e rest ih =>
    obtain ⟨k, p⟩ := e
    by_cases hk : k = id
    · subst hk
      simp [findPage, keys]
    · simp [findPage, hk, keys, ih]
      intro h
      exact fun hj => hk hj.symm

theorem findPage_removePage_ne (t s : String) (hts : t ≠ s) (l : List (String × Page)) :
    findPage t (removePage s l) = findPage t l := by
  induction l with
  | nil => rfl
  | cons e rest ih =>
    obtain ⟨k, p⟩ := e
    by_cases hk : k = s
    · subst hk
      simp only [removePage, if_pos rfl, findPage, if_neg (fun h : k = t => hts h.symm), if_true]
    · simp only [removePage, if_neg hk, findPage]
      by_cases hkt : k = t
      · simp [hkt]
      · simp [hkt, ih]

theorem keys_removePage_sublist (s : String) (l : List (String × Page)) :
    (keys (removePage s l)).Sublist (keys l) := by
  induction l with
  | nil => simp [removePage, keys]
  | cons e rest ih =>
    obtain ⟨k, p⟩ := e
    by_cases hk : k = s
    · simp only [removePage, if_pos hk, keys, List.map_cons]
      exact List.sublist_cons_of_sublist k (List.Sublist.refl _)
    · simp only [removePage, if_neg hk, keys, List.map_cons]
      exact List.Sublist.cons₂ k ih

theorem findPage_removePage_self (s : String) (l : List (String × Page))
    (hnd : (keys l).Nodup) : findPage s (removePage s l) = none := by
  induction l with
  | nil => rfl
  | cons e rest ih =>
    obtain ⟨k, p⟩ := e
    simp only [keys, List.map_cons, List.nodup_cons] at hnd
    by_cases hk : k = s
    · subst hk
      simp only [removePage, if_pos rfl]
      exact (findPage_eq_none_iff k rest).mpr hnd.1
    · simp only [removePage, if_neg hk, findPage, if_neg hk]
      exact ih hnd.2

theorem findPage_setPage_self (s : String) (pg : Page) (l : List (String × Page)) :
    findPage s (setPage s pg l) = some pg := by
  induction l with
  | nil => simp [setPage, findPage]
  | cons e rest ih =>
    obtain ⟨k, p⟩ := e
    by_cases hk : k = s
    · simp [setPage, hk, findPage]
    · simp only [setPage, if_neg hk, findPage, if_neg hk]
      exact ih

theorem mem_keys_setPage (t s : String) (pg : Page) (l : List (String × Page)) :
    t ∈ keys (setPage s pg l) ↔ t = s ∨ t ∈ keys l := by
  induction l with
  | nil => simp [setPage, keys, eq_comm]
  | cons e rest ih =>
    obtain ⟨k, p⟩ := e
    by_cases hk : k = s
    · subst hk
      simp only [setPage, if_pos rfl, if_true, keys, List.map_cons, List.mem_cons]
      tauto
    · simp only [setPage, if_neg hk, keys, List.map_cons, List.mem_cons]
      rw [keys] at ih
      tauto

theorem keys_nodup_setPage (s : String) (pg : Page) (l : List (String × Page))
    (hnd : (keys l).Nodup) : (keys (setPage s pg l)).Nodup := by
  induction l with
  | nil => simp [setPage, keys]
  | cons e rest ih =>
    obtain ⟨k, p⟩ := e
    simp only [keys, List.map_cons, List.nodup_cons] at hnd
    by_cases hk : k = s
    · subst hk
      rw [show setPage k pg ((k, p) :: rest) = (k, pg) :: rest by simp [setPage]]
      simp only [keys, List.map_cons, List.nodup_cons]
      exact hnd
    · simp only [setPage, if_neg hk, keys, List.map_cons, List.nodup_cons]
      refine ⟨fun hmem => ?_, ih hnd.2⟩
      rcases (mem_keys_setPage k s pg rest).mp hmem with h | h
      · exact hk h
      · exact hnd.1 h

/-! Basic shape lemmas about the operations. -/

theorem pages_initBrowser (m : ManagerState) (ok : Bool) (cause : String) (pid : Nat) :
    (initBrowser m ok cause pid).1.pages = m.pages := by
  cases hb : m.browser <;> simp only [initBrowser, hb]
  split <;> rfl

theorem config_initBrowser (m : ManagerState) (ok : Bool) (cause : String) (pid : Nat) :
    (initBrowser m ok cause pid).1.config = m.config := by
  cases hb : m.browser <;> simp only [initBrowser, hb]
  split <;> rfl

theorem keys_nodup_getPageWithBrowser (m : ManagerState) (sid : Option String) (o : GPOracle)
    (h : (keys m.pages).Nodup) : (keys (getPageWithBrowser m sid o).1.pages).Nodup := by
  simp only [getPageWithBrowser]
  split
  · exact h
  · split
    · exact h
    · split
      · exact keys_nodup_setPage _ _ _ h
      · exact h

theorem keys_nodup_getPage (m : ManagerState) (sid : Option String) (o : GPOracle)
    (h : (keys m.pages).Nodup) : (keys (getPage m sid o).1.pages).Nodup := by
  simp only [getPage]
  split
  · exact keys_nodup_getPageWithBrowser m sid o h
  · split
    · next m1 msg heq =>
      have hp : m1.pages = m.pages := by
        have := pages_initBrowser m o.launchOk o.launchCause o.newPid
        rw [heq] at this
        exact this
      simpa [hp] using h
    · next m1 out hne heq =>
      have hp : m1.pages = m.pages := by
        have := pages_initBrowser m o.launchOk o.launchCause o.newPid
        rw [heq] at this
        exact this
      exact keys_nodup_getPageWithBrowser m1 sid o (hp ▸ h)

theorem keys_nodup_closePage (m : ManagerState) (sid : String) (ok : Bool)
    (h : (keys m.pages).Nodup) : (keys (closePage m sid ok).pages).Nodup := by
  simp only [closePage]
  split
  · exact h
  · split
    · exact ((keys_removePage_sublist sid m.pages).nodup h)
    · exact h

/-- Key invariant justifying `Nodup` hypotheses below: the registry is a
JS `Map`, so in every reachable state it holds at most one entry per
session id. -/
theorem reachable_keys_nodup (cfg : BrowserConfig) (m : ManagerState)
    (h : Reachable cfg m) : (keys m.pages).Nodup := by
  induction h with
  | start => simp [keys]
  | step m1 m2 _ hstep ih =>
    cases hstep with
    | doInit ok cause pid => rw [pages_initBrowser]; exact ih
    | doGetPage sid o h1 h2 => exact keys_nodup_getPage m1 sid o ih
    | doClosePage sid ok => exact keys_nodup_closePage m1 sid ok ih
    | doClose ok =>
      simp only [close]
      split
      · exact ih
      · split <;> simp [keys]
    | evDisconnected => exact ih
    | evPageClose id => exact (keys_removePage_sublist id m1.pages).nodup ih

theorem browser_getPageWithBrowser (m : ManagerState) (sid : Option String) (o : GPOracle) :
    (getPageWithBrowser m sid o).1.browser = m.browser := by
  simp only [getPageWithBrowser]
  split
  · rfl
  · split
    · rfl
    · split <;> rfl

theorem getPageWithBrowser_creates (m : ManagerState) (sid : Option String) (o : GPOracle)
    (pid : Nat) (hb : m.browser = some pid) (hok : o.newPageOk = true)
    (hfresh : lookupIfProvided sid m.pages = none) :
    getPageWithBrowser m sid o =
      ({ m with pages := setPage (sessOrFresh sid o.freshId)
                  (newConfiguredPage m.config pid o.newHandleId) m.pages },
       Except.ok (newConfiguredPage m.config pid o.newHandleId, sessOrFresh sid o.freshId)) := by
  simp [getPageWithBrowser, hb, hfresh, hok]

/-- A `getPage` oracle whose lazy launch fails. -/
def oFail : GPOracle :=
  { freshId := "a", launchOk := false, launchCause := "invalid executable path", newPid := 0,
    newPageOk := true, newPageCause := "", newHandleId := 1 }

/-- A `getPage` oracle that relaunches the process with a distinct pid. -/
def oRelaunch : GPOracle :=
  { freshId := "b", launchOk := true, launchCause := "", newPid := 5,
    newPageOk := true, newPageCause := "", newHandleId := 9 }

/-- C4: for every registered session id `s` (registered ids are nonempty,
by `reachable_keys_nodup`-style reasoning: `uuidv4()` and the reuse guard
never register the empty string), `getPage(s)` returns the registered page
handle unchanged, paired with the same id `s`, and leaves the whole state
— in particular the registry — untouched, so repeated calls keep
returning the identical handle until the page is closed. -/
theorem getPage_registered_stable (m : ManagerState) (s : String) (pg : Page)
    (o : GPOracle) (pid : Nat) (hb : m.browser = some pid) (hs : s ≠ "")
    (hreg : findPage s m.pages = some pg) :
    getPage m (some s) o = (m, Except.ok (pg, s)) := by
  simp [getPage, getPageWithBrowser, hb, lookupIfProvided, hs, hreg, sessOrFresh]

/-- Witness for C4 at a concrete run: the session created as `"a"` is
returned unchanged by a second and third lookup. -/
theorem getPage_registered_stable_witness :
    getPage trace2 (some "a") oA = (trace2, Except.ok (newConfiguredPage sampleConfig 0 1, "a")) := by
  have h := getPage_registered_stable trace2 "a" (newConfiguredPage sampleConfig 0 1) oA 0
    (by decide) (by decide) (by decide)
  exact h

/-- C5: after the `disconnected` event (process reference `none`), a
`getPage(s)` for a session registered before the disconnect re-launches
the browser process (the result state holds the fresh pid) but returns
the stale pre-disconnect page handle still stored in the registry — the
registry is left as it was, and no page is created on the new process. -/
theorem getPage_after_disconnect_returns_stale (m : ManagerState) (s : String) (pg : Page)
    (o : GPOracle) (hb : m.browser = none) (hs : s ≠ "")
    (hreg : findPage s m.pages = some pg) (hok : o.launchOk = true) :
    getPage m (some s) o = ({ m with browser := some o.newPid }, Except.ok (pg, s)) := by
  simp [getPage, initBrowser, hb, hok, getPageWithBrowser, lookupIfProvided, hs, hreg, sessOrFresh]

/-- Witness for C5: after the concrete disconnect in `trace3`, looking up
`"a"` relaunches with pid 5 yet returns the handle created on pid 0. -/
theorem getPage_after_disconnect_returns_stale_witness :
    getPage trace3 (some "a") oRelaunch =
      ({ trace3 with browser := some 5 }, Except.ok (newConfiguredPage sampleConfig 0 1, "a")) ∧
    (newConfiguredPage sampleConfig 0 1).ownerPid ≠ 5 := by
  refine ⟨?_, by decide⟩
  exact getPage_after_disconnect_returns_stale trace3 "a" (newConfiguredPage sampleConfig 0 1)
    oRelaunch (by decide) (by decide) (by decide) (by decide)

/-- C7: `initialize` is idempotent-guarded — on an already-running owner
it is a no-op returning the warning outcome, never an error; when the
process cannot start it fails with the launch error wrapping the
underlying cause, the state is unchanged (no process reference retained),
and a subsequent `initialize` can retry successfully. -/
theorem initialize_guarded_and_retryable (m : ManagerState) (cause : String) (pid pid2 : Nat) :
    (∀ ok : Bool, m.browser.isSome → initBrowser m ok cause pid = (m, InitOutcome.warnedAlreadyRunning)) ∧
    (m.browser = none →
      initBrowser m false cause pid =
        (m, InitOutcome.failed ("Failed to launch browser: " ++ cause)) ∧
      initBrowser (initBrowser m false cause pid).1 true cause pid2 =
        ({ m with browser := some pid2 }, InitOutcome.launched)) := by
  constructor
  · intro ok hb
    obtain ⟨p, hp⟩ := Option.isSome_iff_exists.mp hb
    simp [initBrowser, hp]
  · intro hb
    constructor
    · simp [initBrowser, hb]
    · simp [initBrowser, hb]

/-- Witness for C7: the running `trace1` manager warns, and the fresh
`m0` manager fails with the wrapped cause yet can retry successfully. -/
theorem initialize_guarded_and_retryable_witness :
    initBrowser trace1 true "x" 7 = (trace1, InitOutcome.warnedAlreadyRunning) ∧
    initBrowser m0 false "invalid executable path" 7 =
      (m0, InitOutcome.failed ("Failed to launch browser: " ++ "invalid executable path")) ∧
    initBrowser (initBrowser m0 false "invalid executable path" 7).1 true "invalid executable path" 8 =
      ({ m0 with browser := some 8 }, InitOutcome.launched) := by
  refine ⟨?_, ?_⟩
  · exact (initialize_guarded_and_retryable trace1 "x" 7 8).1 true (by decide)
  · exact (initialize_guarded_and_retryable m0 "invalid executable path" 7 8).2 rfl

/-- C9: when the process owner is not running, `getPage` lazily
initializes it instead of erroring; if the launch fails, `getPage` raises
exactly the wrapped launch error and the state — in particular the
registry — is returned completely unchanged, while a successful launch
leaves the fresh process installed. -/
theorem getPage_lazy_init (m : ManagerState) (sid : Option String) (o : GPOracle)
    (hb : m.browser = none) :
    (o.launchOk = false →
      getPage m sid o =
        (m, Except.error (BMErr.launchFailure ("Failed to launch browser: " ++ o.launchCause)))) ∧
    (o.launchOk = true → (getPage m sid o).1.browser = some o.newPid) := by
  constructor
  · intro hko
    simp [getPage, initBrowser, hb, hko]
  · intro hko
    simp only [getPage, hb, initBrowser, hko, if_true]
    rw [browser_getPageWithBrowser]

/-- Witness for C9: a failing launch makes `getPage` on the fresh manager
raise the wrapped error with the registry untouched; a succeeding one
installs the process. -/
theorem getPage_lazy_init_witness :
    getPage m0 none oFail =
      (m0, Except.error (BMErr.launchFailure ("Failed to launch browser: " ++ "invalid executable path"))) ∧
    (getPage m0 none oA).1.browser = some 0 := by
  exact ⟨(getPage_lazy_init m0 none oFail rfl).1 rfl, (getPage_lazy_init m0 none oA rfl).2 rfl⟩

/-- C10: whenever `getPage` creates a page (no registered session was
requested: the id was absent, empty, or unregistered), the page handed
back is configured with the configured window size as viewport, 30000 ms
default navigation and operation timeouts, and the fixed Chrome user
agent, and it is registered in the result state before being returned. -/
theorem getPage_new_page_configured (m : ManagerState) (sid : Option String) (o : GPOracle)
    (hok : o.newPageOk = true)
    (hlaunch : m.browser = none → o.launchOk = true)
    (hfresh : ∀ s, sid = some s → s ≠ "" → findPage s m.pages = none) :
    ∃ pg id, (getPage m sid o).2 = Except.ok (pg, id) ∧
      pg.settings.viewportWidth = m.config.windowWidth ∧
      pg.settings.viewportHeight = m.config.windowHeight ∧
      pg.settings.navTimeoutMs = 30000 ∧
      pg.settings.defaultTimeoutMs = 30000 ∧
      pg.settings.userAgent = chromeUserAgent ∧
      findPage id (getPage m sid o).1.pages = some pg := by
  have hlook : lookupIfProvided sid m.pages = none := by
    cases sid with
    | none => rfl
    | some s =>
      by_cases hs : s = ""
      · simp [lookupIfProvided, hs]
      · simp [lookupIfProvided, hs, hfresh s rfl hs]
  cases hb : m.browser with
  | some pid =>
    have hg : getPage m sid o = getPageWithBrowser m sid o := by
      simp [getPage, hb]
    refine ⟨newConfiguredPage m.config pid o.newHandleId, sessOrFresh sid o.freshId,
      ?_, rfl, rfl, rfl, rfl, rfl, ?_⟩
    · rw [hg, getPageWithBrowser_creates m sid o pid hb hok hlook]
    · rw [hg, getPageWithBrowser_creates m sid o pid hb hok hlook]
      exact findPage_setPage_self _ _ _
  | none =>
    have hko := hlaunch hb
    have hg : getPage m sid o = getPageWithBrowser { m with browser := some o.newPid } sid o := by
      simp [getPage, hb, initBrowser, hko]
    have hcr := getPageWithBrowser_creates { m with browser := some o.newPid } sid o o.newPid
      rfl hok hlook
    refine ⟨newConfiguredPage m.config o.newPid o.newHandleId, sessOrFresh sid o.freshId,
      ?_, rfl, rfl, rfl, rfl, rfl, ?_⟩
    · rw [hg, hcr]
    · rw [hg, hcr]
      exact findPage_setPage_self _ _ _

/-- Witness for C10: the page created by the concrete `getPage()` run is
configured from `sampleConfig` and registered under the generated id. -/
theorem getPage_new_page_configured_witness :
    ∃ pg id, (getPage trace1 none oA).2 = Except.ok (pg, id) ∧
      pg.settings.viewportWidth = trace1.config.windowWidth ∧
      pg.settings.viewportHeight = trace1.config.windowHeight ∧
      pg.settings.navTimeoutMs = 30000 ∧
      pg.settings.defaultTimeoutMs = 30000 ∧
      pg.settings.userAgent = chromeUserAgent ∧
      findPage id (getPage trace1 none oA).1.pages = some pg :=
  getPage_new_page_configured trace1 none oA rfl (fun h => by simp [trace1, initBrowser, m0] at h)
    (fun s h => by cases h)

/-- C8: for a session `s` with a registered page, the page-close observer
installed at creation (its body is `onPageClose`) removes exactly the
entry for `s` the moment the browser-side close event fires — no explicit
`closePage` call involved: afterwards the registry no longer contains
`s`, every other session is untouched, and the process reference is
untouched.  The `Nodup` hypothesis holds in every reachable state by
`reachable_keys_nodup`. -/
theorem pageClose_event_removes_entry (m : ManagerState) (s : String) (pg : Page)
    (hnd : (keys m.pages).Nodup) (_hreg : findPage s m.pages = some pg) :
    findPage s (onPageClose m s).pages = none ∧
    (∀ t, t ≠ s → findPage t (onPageClose m s).pages = findPage t m.pages) ∧
    (onPageClose m s).browser = m.browser := by
  refine ⟨findPage_removePage_self s m.pages hnd, fun t ht => findPage_removePage_ne t s ht m.pages, rfl⟩

/-- Witness for C8: the close event for the concretely created session
`"a"` erases it from the registry. -/
theorem pageClose_event_removes_entry_witness :
    findPage "a" (onPageClose trace2 "a").pages = none ∧
    (∀ t, t ≠ "a" → findPage t (onPageClose trace2 "a").pages = findPage t trace2.pages) ∧
    (onPageClose trace2 "a").browser = trace2.browser :=
  pageClose_event_removes_entry trace2 "a" (newConfiguredPage sampleConfig 0 1)
    (by decide) (by decide)

/-- The post-disconnect state `trace3` is reachable from a fresh manager:
initialize, `getPage()`, then the `disconnected` event. -/
theorem reachable_trace3 : Reachable sampleConfig trace3 := by
  have h1 : Reachable sampleConfig trace1 :=
    Reachable.step m0 trace1 Reachable.start (Step.doInit m0 true "" 0)
  have h2 : Reachable sampleConfig trace2 :=
    Reachable.step trace1 trace2 h1 (Step.doGetPage trace1 none oA (by decide) (by decide))
  exact Reachable.step trace2 trace3 h2 (Step.evDisconnected trace2)

/-- A registered session in a running manager, used as concrete input for
the corrections below. -/
def mRun : ManagerState := ManagerState.mk (some 0) [] sampleConfig

/-- C1 counterexample: the claim says a `getPage(s)` with an unregistered
caller-supplied `s` pairs the new page with a freshly generated id
different from `s`.  In fact `const id = sessionId || uuidv4()` keeps the
caller-supplied id: on the running empty manager, `getPage("stale")`
returns session id `"stale"` itself, and replaying the spec scenario —
create under `"a"`, `closePage("a")`, `getPage("a")` — returns the old id
`"a"` again, not a fresh one. -/
theorem getPage_stale_id_counterexample :
    ((getPage mRun (some "stale") oA).2.map (fun r => r.2)) = Except.ok "stale" ∧
    ((getPage (closePage trace2 "a" true) (some "a") oA).2.map (fun r => r.2)) = Except.ok "a" := by
  constructor <;> rfl

/-- C1 amended: when `s` is supplied (nonempty) but not registered,
`getPage(s)` creates a fresh configured page, registers it under the
caller-supplied id `s` itself, and returns it paired with that same `s`
— it does not error, but it also does not generate a fresh id.  In
particular after `closePage(s)` succeeds, `getPage(s)` yields a new page
under the old id `s`. -/
theorem getPage_unregistered_id_reused (m : ManagerState) (s : String) (o : GPOracle)
    (pid : Nat) (hb : m.browser = some pid) (hs : s ≠ "")
    (hreg : findPage s m.pages = none) (hok : o.newPageOk = true) :
    getPage m (some s) o =
      ({ m with pages := setPage s (newConfiguredPage m.config pid o.newHandleId) m.pages },
       Except.ok (newConfiguredPage m.config pid o.newHandleId, s)) := by
  have hlook : lookupIfProvided (some s) m.pages = none := by
    simp [lookupIfProvided, hs, hreg]
  have hg : getPage m (some s) o = getPageWithBrowser m (some s) o := by
    simp [getPage, hb]
  rw [hg, getPageWithBrowser_creates m (some s) o pid hb hok hlook]
  simp [sessOrFresh, hs]

/-- Witness for the amended C1 on the concrete stale id. -/
theorem getPage_unregistered_id_reused_witness :
    getPage mRun (some "stale") oA =
      ({ mRun with pages := setPage "stale" (newConfiguredPage sampleConfig 0 1) mRun.pages },
       Except.ok (newConfiguredPage sampleConfig 0 1, "stale")) :=
  getPage_unregistered_id_reused mRun "stale" oA 0 (by decide) (by decide) (by decide) rfl

/-- C2 counterexample: the claim says the registry entry is removed
whether or not the underlying close succeeded.  In fact
`this.pages.delete(sessionId)` sits inside the `try` after the failing
`await page.close()`, so on a close failure the entry survives: on the
concrete state holding session `"a"`, a failing `closePage("a")` leaves
`"a"` registered. -/
theorem closePage_failure_keeps_entry_counterexample :
    ¬ findPage "a" (closePage trace2 "a" false).pages = none := by decide

/-- C2 amended: `closePage` is best-effort and never raises (it is a
total function); when the underlying close succeeds the entry for `s` is
removed, but when it fails the error is only swallowed and the state —
including the entry for `s` — is left unchanged; the process reference
is never touched. -/
theorem closePage_best_effort (m : ManagerState) (s : String)
    (hnd : (keys m.pages).Nodup) :
    closePage m s false = m ∧
    findPage s (closePage m s true).pages = none ∧
    (closePage m s true).browser = m.browser := by
  refine ⟨?_, ?_, ?_⟩
  · simp only [closePage]
    split
    · rfl
    · simp
  · simp only [closePage]
    split
    · next hnone => exact hnone
    · simp only [if_true]
      exact findPage_removePage_self s m.pages hnd
  · simp only [closePage]
    split
    · rfl
    · simp

/-- Witness for the amended C2 on the concrete registered session. -/
theorem closePage_best_effort_witness :
    closePage trace2 "a" false = trace2 ∧
    findPage "a" (closePage trace2 "a" true).pages = none ∧
    (closePage trace2 "a" true).browser = trace2.browser :=
  closePage_best_effort trace2 "a" (by decide)

/-- C3 counterexample: the claim says that in every reachable state the
registry holds exactly the open pages, with no dangling entry after a
page closes through any path including process disconnect.  The
reachable state `trace3` — initialize, `getPage()`, then the
`disconnected` event — still holds the entry `"a"` for a page of the
dead process: registry size 1, open pages 0. -/
theorem registry_invariant_counterexample :
    Reachable sampleConfig trace3 ∧
    trace3.pages.length = 1 ∧
    openCount trace3 = 0 ∧
    ¬ findPage "a" trace3.pages = none := by
  exact ⟨reachable_trace3, rfl, rfl, by decide⟩

/-- C3 amended: the registry is cleaned up when a page closes via the
page-close event or via a successful explicit `closePage`, but a process
disconnect removes nothing: the listener clears only the process
reference and every registry entry survives as a dangling entry. -/
theorem registry_cleanup_per_path (m : ManagerState) (s : String)
    (hnd : (keys m.pages).Nodup) :
    findPage s (onPageClose m s).pages = none ∧
    findPage s (closePage m s true).pages = none ∧
    (onDisconnected m).pages = m.pages ∧
    (onDisconnected m).browser = none := by
  refine ⟨findPage_removePage_self s m.pages hnd, ?_, rfl, rfl⟩
  simp only [closePage]
  split
  · next hnone => exact hnone
  · simp only [if_true]
    exact findPage_removePage_self s m.pages hnd

/-- Witness for the amended C3 on the concrete registered session. -/
theorem registry_cleanup_per_path_witness :
    findPage "a" (onPageClose trace2 "a").pages = none ∧
    findPage "a" (closePage trace2 "a" true).pages = none ∧
    (onDisconnected trace2).pages = trace2.pages ∧
    (onDisconnected trace2).browser = none :=
  registry_cleanup_per_path trace2 "a" (by decide)

/-- C6 counterexample: the claim says `shutdown()` leaves zero registered
sessions and clears all internal references.  On the reachable
post-disconnect state `trace3` the whole body of `close` is skipped
(`this.browser` is `null`), so the dangling session survives shutdown;
and when the process close itself fails, the `browser` reference is
retained (`this.browser = null` sits inside the `try`). -/
theorem shutdown_counterexample :
    Reachable sampleConfig trace3 ∧
    close trace3 true = trace3 ∧
    (close trace3 true).pages.length = 1 ∧
    (close trace2 false).browser = some 0 := by
  exact ⟨reachable_trace3, rfl, rfl, rfl⟩

/-- C6 amended: when the process reference is live, `shutdown` closes
every tracked page with individual failures swallowed (it is a total
function and never raises) and clears the registry; the process
reference is cleared when the process close succeeds.  When the
reference is already absent, `shutdown` is a no-op — in particular a
second `shutdown` right after a successful one is a no-op — but a no-op
shutdown after a disconnect leaves stale registry entries in place. -/
theorem close_shutdown_contract (m : ManagerState) (ok : Bool) :
    (m.browser.isSome → (close m ok).pages = []) ∧
    (m.browser.isSome → (close m true).browser = none) ∧
    (m.browser = none → close m ok = m) ∧
    close (close m true) true = close m true := by
  refine ⟨?_, ?_, ?_, ?_⟩
  · intro hb
    obtain ⟨p, hp⟩ := Option.isSome_iff_exists.mp hb
    simp only [close, hp]
    split <;> rfl
  · intro hb
    obtain ⟨p, hp⟩ := Option.isSome_iff_exists.mp hb
    simp [close, hp]
  · intro hb
    simp [close, hb]
  · cases hb : m.browser with
    | none => simp [close, hb]
    | some p => simp [close, hb]

/-- Witness for the amended C6 on the concrete running manager. -/
theorem close_shutdown_contract_witness :
    (close trace2 true).pages = [] ∧
    (close trace2 true).browser = none ∧
    close (close trace2 true) true = close trace2 true := by
  have h := close_shutdown_contract trace2 true
  exact ⟨h.1 (by decide), h.2.1 (by decide), h.2.2.2⟩

end BrowserMgr
